import Mathlib

/-!
Verification of the register-access protocol layer in `src/interface.rs` of the
ads122x04 driver crate: command-byte encoding, the I2C (bus-addressed) adapter,
the UART (framed-stream) adapter, and big-endian sample decoding.

Transports are external collaborators; we model them as oracles assigning a
result to each primitive call, and every adapter operation returns, alongside
its result, the list of primitive transactions it attempted, in order.
-/

namespace Ads122x04

/-- Modelled from the spec: the `Commands` enum is declared in `crate::registers`,
which is not among the provided sources.  Per the spec, each command kind
(write-register, read-register, read-data-sample) has a fixed 2-bit opcode,
the values disjoint and fitting in the low 2 bits of a byte.  We model the
numeric assignment abstractly as a record of the three opcode values. -/
structure Commands where
  WReg : Nat
  RReg : Nat
  RData : Nat
  deriving DecidableEq, Repr

/-- Spec invariant on the opcode assignment: disjoint values fitting in 2 bits. -/
def Commands.Wf (c : Commands) : Prop :=
  c.WReg < 4 ∧ c.RReg < 4 ∧ c.RData < 4 ∧
    c.WReg ≠ c.RReg ∧ c.WReg ≠ c.RData ∧ c.RReg ≠ c.RData

/-- A concrete opcode assignment satisfying the spec invariant, used to
instantiate closed examples. -/
def exampleCommands : Commands := ⟨1, 2, 3⟩

/-- Modelled from the spec: the crate's `Error` type is declared in the crate
root, not among the provided sources; the spec defines a single error kind, a
communication error wrapping whatever the transport reported.  `interface.rs`
uses only the `CommError` constructor. -/
inductive Error (E : Type) where
  | CommError (e : E)
  deriving DecidableEq, Repr

/-- The command byte as built at each call site in `interface.rs`:
`Commands::XXXX as u8 | (register << 2)` in `u8` arithmetic — the left shift
discards bits above bit 7 (`register` is a `u8`, i.e. `< 256`). -/
def commandByte (opcode register : Nat) : Nat :=
  opcode ||| ((register <<< 2) % 256)

/-- The sample decoding performed inside `read_data` on both adapters:
`(msb as u32) << 16 | (csb as u32) << 8 | (lsb as u32)`.  For byte inputs the
value stays below `2 ^ 24 < 2 ^ 32`, so `u32` arithmetic never truncates and
plain natural-number arithmetic is faithful. -/
def decodeSample (msb csb lsb : Nat) : Nat :=
  (msb <<< 16) ||| ((csb <<< 8) ||| lsb)

/-- A zero-initialised buffer `init` after a transport read deposited the bytes
`bs` at its front: positions past the deposited prefix keep their initial
contents.  (Both adapters initialise their read buffers with zero literals.) -/
def fillBuf (init bs : List Nat) : List Nat :=
  bs.take init.length ++ init.drop bs.length

/-- Oracle model of the external `embedded_hal::i2c::I2c` collaborator: the
outcome of a plain addressed write, and of a combined write-then-read
transaction (for the latter, the bytes the transport deposits in the caller's
buffer). -/
structure I2cBus (E : Type) where
  writeRes : Nat → List Nat → Except E Unit
  writeReadRes : Nat → List Nat → Nat → Except E (List Nat)

/-- One primitive transaction attempted on the I2C bus. -/
inductive I2cAction where
  | write (addr : Nat) (bytes : List Nat)
  | writeRead (addr : Nat) (out : List Nat) (readLen : Nat)
  deriving DecidableEq, Repr

/-- Oracle model of the external `embedded_io` byte-stream collaborator:
outcomes of `write_all`, `flush`, and `read` (for the latter, the bytes the
transport deposits at the front of the caller's buffer; the count it returns is
the length of that list). -/
structure SerialPort (E : Type) where
  writeAllRes : List Nat → Except E Unit
  flushRes : Except E Unit
  readRes : Nat → Except E (List Nat)

/-- One primitive call attempted on the serial stream. -/
inductive SerialAction where
  | writeAll (bytes : List Nat)
  | flush
  | read (len : Nat)
  deriving DecidableEq, Repr

/-- `I2cInterface` from `interface.rs`: owns the bus handle (modelled
separately as the oracle) and a fixed 7-bit target `address`. -/
structure I2cInterface where
  address : Nat
  deriving DecidableEq, Repr

/-- `SerialInterface` from `interface.rs`: owns only the stream handle
(modelled separately as the oracle), no other fields. -/
structure SerialInterface where
  deriving DecidableEq, Repr

/-- `I2cInterface::write_register`: build the write-command byte, issue one
addressed write of `[command, data]`, wrap any transport failure in
`Error::CommError`.  Returns the adapter state after the call, the result, and
the transactions attempted. -/
def I2cInterface.write_register {E : Type} (cmds : Commands) (s : I2cInterface)
    (bus : I2cBus E) (register data : Nat) :
    I2cInterface × Except (Error E) Unit × List I2cAction :=
  let reg := commandByte cmds.WReg register
  match bus.writeRes s.address [reg, data] with
  | .ok _ => (s, .ok (), [.write s.address [reg, data]])
  | .error e => (s, .error (.CommError e), [.write s.address [reg, data]])

/-- `I2cInterface::write_data`: one addressed write of `[payload]`. -/
def I2cInterface.write_data {E : Type} (s : I2cInterface) (bus : I2cBus E)
    (payload : Nat) :
    I2cInterface × Except (Error E) Unit × List I2cAction :=
  match bus.writeRes s.address [payload] with
  | .ok _ => (s, .ok (), [.write s.address [payload]])
  | .error e => (s, .error (.CommError e), [.write s.address [payload]])

/-- `I2cInterface::read_register`: build the read-command byte, issue one
write-then-read transaction with payload `[command]` and a 1-byte
zero-initialised buffer, return `buffer[0]`. -/
def I2cInterface.read_register {E : Type} (cmds : Commands) (s : I2cInterface)
    (bus : I2cBus E) (register : Nat) :
    I2cInterface × Except (Error E) Nat × List I2cAction :=
  let reg := commandByte cmds.RReg register
  match bus.writeReadRes s.address [reg] 1 with
  | .ok resp => (s, .ok ((fillBuf [0] resp).getD 0 0), [.writeRead s.address [reg] 1])
  | .error e => (s, .error (.CommError e), [.writeRead s.address [reg] 1])

/-- `I2cInterface::read_data`: one write-then-read transaction with payload
`[Commands::RData as u8]` and a 3-byte zero-initialised buffer; decode the
buffer big-endian. -/
def I2cInterface.read_data {E : Type} (cmds : Commands) (s : I2cInterface)
    (bus : I2cBus E) :
    I2cInterface × Except (Error E) Nat × List I2cAction :=
  match bus.writeReadRes s.address [cmds.RData] 3 with
  | .ok resp =>
      let buffer := fillBuf [0, 0, 0] resp
      (s, .ok (decodeSample (buffer.getD 0 0) (buffer.getD 1 0) (buffer.getD 2 0)),
        [.writeRead s.address [cmds.RData] 3])
  | .error e => (s, .error (.CommError e), [.writeRead s.address [cmds.RData] 3])

/-- `SerialInterface::write_register`: write the frame
`[0x55, command, data]`, then flush; each failing step is wrapped in
`Error::CommError` and aborts the call. -/
def SerialInterface.write_register {E : Type} (cmds : Commands) (s : SerialInterface)
    (port : SerialPort E) (register data : Nat) :
    SerialInterface × Except (Error E) Unit × List SerialAction :=
  let reg := commandByte cmds.WReg register
  match port.writeAllRes [0x55, reg, data] with
  | .error e => (s, .error (.CommError e), [.writeAll [0x55, reg, data]])
  | .ok _ =>
    match port.flushRes with
    | .error e => (s, .error (.CommError e), [.writeAll [0x55, reg, data], .flush])
    | .ok _ => (s, .ok (), [.writeAll [0x55, reg, data], .flush])

/-- `SerialInterface::write_data`: write the frame `[0x55, payload]`, then
flush. -/
def SerialInterface.write_data {E : Type} (s : SerialInterface) (port : SerialPort E)
    (payload : Nat) :
    SerialInterface × Except (Error E) Unit × List SerialAction :=
  match port.writeAllRes [0x55, payload] with
  | .error e => (s, .error (.CommError e), [.writeAll [0x55, payload]])
  | .ok _ =>
    match port.flushRes with
    | .error e => (s, .error (.CommError e), [.writeAll [0x55, payload], .flush])
    | .ok _ => (s, .ok (), [.writeAll [0x55, payload], .flush])

/-- `SerialInterface::read_register`: write the frame `[0x55, command]`, flush,
read into a 1-byte zero-initialised buffer (the returned count is ignored by
the source), return `out[0]`. -/
def SerialInterface.read_register {E : Type} (cmds : Commands) (s : SerialInterface)
    (port : SerialPort E) (register : Nat) :
    SerialInterface × Except (Error E) Nat × List SerialAction :=
  let reg := commandByte cmds.RReg register
  match port.writeAllRes [0x55, reg] with
  | .error e => (s, .error (.CommError e), [.writeAll [0x55, reg]])
  | .ok _ =>
    match port.flushRes with
    | .error e => (s, .error (.CommError e), [.writeAll [0x55, reg], .flush])
    | .ok _ =>
      match port.readRes 1 with
      | .error e => (s, .error (.CommError e), [.writeAll [0x55, reg], .flush, .read 1])
      | .ok bs =>
          (s, .ok ((fillBuf [0] bs).getD 0 0), [.writeAll [0x55, reg], .flush, .read 1])

/-- `SerialInterface::read_data`: write the frame `[0x55, Commands::RData as u8]`,
flush, read into a 3-byte zero-initialised buffer (count ignored), decode the
buffer big-endian. -/
def SerialInterface.read_data {E : Type} (cmds : Commands) (s : SerialInterface)
    (port : SerialPort E) :
    SerialInterface × Except (Error E) Nat × List SerialAction :=
  match port.writeAllRes [0x55, cmds.RData] with
  | .error e => (s, .error (.CommError e), [.writeAll [0x55, cmds.RData]])
  | .ok _ =>
    match port.flushRes with
    | .error e => (s, .error (.CommError e), [.writeAll [0x55, cmds.RData], .flush])
    | .ok _ =>
      match port.readRes 3 with
      | .error e =>
          (s, .error (.CommError e), [.writeAll [0x55, cmds.RData], .flush, .read 3])
      | .ok bs =>
          let out := fillBuf [0, 0, 0] bs
          (s, .ok (decodeSample (out.getD 0 0) (out.getD 1 0) (out.getD 2 0)),
            [.writeAll [0x55, cmds.RData], .flush, .read 3])

/-- An oracle on which every bus transaction succeeds, reads depositing zero
bytes of the requested length. -/
def allOkBus : I2cBus Nat :=
  ⟨fun _ _ => .ok (), fun _ _ n => .ok (List.replicate n 0)⟩

/-- An oracle on which every stream call succeeds, reads depositing zero bytes
of the requested length. -/
def allOkPort : SerialPort Nat :=
  ⟨fun _ => .ok (), .ok (), fun n => .ok (List.replicate n 0)⟩

/-- An oracle whose reads deposit the sample bytes `[1, 2, 3]`. -/
def sampleBus : I2cBus Nat :=
  ⟨fun _ _ => .ok (), fun _ _ _ => .ok [1, 2, 3]⟩

/-- A stream oracle whose reads deposit the sample bytes `[1, 2, 3]`. -/
def samplePort : SerialPort Nat :=
  ⟨fun _ => .ok (), .ok (), fun _ => .ok [1, 2, 3]⟩

/-- A stream oracle whose reads deposit the single byte `0xAB`. -/
def byteReadPort : SerialPort Nat :=
  ⟨fun _ => .ok (), .ok (), fun _ => .ok [0xAB]⟩

/-- A stream oracle whose 1-byte reads deposit nothing and whose other reads
deposit the single byte `0xCD` — a short read on both counts. -/
def shortReadPort : SerialPort Nat :=
  ⟨fun _ => .ok (), .ok (), fun n => if n = 1 then .ok [] else .ok [0xCD]⟩

/-- An oracle on which every bus transaction fails with error `7`. -/
def failBus : I2cBus Nat :=
  ⟨fun _ _ => .error 7, fun _ _ _ => .error 7⟩

/-- A stream oracle on which `write_all` fails with error `7`. -/
def failWritePort : SerialPort Nat :=
  ⟨fun _ => .error 7, .ok (), fun _ => .ok []⟩

/-- A stream oracle on which `flush` fails with error `7`. -/
def failFlushPort : SerialPort Nat :=
  ⟨fun _ => .ok (), .error 7, fun _ => .ok []⟩

/-- A stream oracle on which `read` fails with error `7`. -/
def failReadPort : SerialPort Nat :=
  ⟨fun _ => .ok (), .ok (), fun _ => .error 7⟩

/-- For `addr < 64` the `u8` left shift by 2 stays below 256, so the modelled
wrap is the identity. -/
theorem shiftLeft_two_mod (addr : Nat) (h : addr < 64) :
    (addr <<< 2) % 256 = addr <<< 2 := by
  have h4 : addr <<< 2 = addr * 4 := by
    simp [Nat.shiftLeft_eq]
  omega

/-- C1: for every opcode assignment and every register address in `[0, 63]`,
the command byte constructed by `write_register` and `read_register` on both
adapters equals the kind's opcode bitwise-or'd with `addr <<< 2`. -/
theorem command_byte_layout {E : Type} (cmds : Commands) (addr : Nat) (h : addr < 64)
    (s : I2cInterface) (t : SerialInterface) (bus : I2cBus E) (port : SerialPort E)
    (data : Nat) :
    commandByte cmds.WReg addr = cmds.WReg ||| (addr <<< 2) ∧
    commandByte cmds.RReg addr = cmds.RReg ||| (addr <<< 2) ∧
    (s.write_register cmds bus addr data).2.2 =
      [.write s.address [cmds.WReg ||| (addr <<< 2), data]] ∧
    (s.read_register cmds bus addr).2.2 =
      [.writeRead s.address [cmds.RReg ||| (addr <<< 2)] 1] ∧
    (t.write_register cmds port addr data).2.2.head? =
      some (.writeAll [0x55, cmds.WReg ||| (addr <<< 2), data]) ∧
    (t.read_register cmds port addr).2.2.head? =
      some (.writeAll [0x55, cmds.RReg ||| (addr <<< 2)]) := by
  have hw : commandByte cmds.WReg addr = cmds.WReg ||| (addr <<< 2) := by
    simp [commandByte, shiftLeft_two_mod addr h]
  have hr : commandByte cmds.RReg addr = cmds.RReg ||| (addr <<< 2) := by
    simp [commandByte, shiftLeft_two_mod addr h]
  refine ⟨hw, hr, ?_, ?_, ?_, ?_⟩
  · rw [← hw]
    rcases hb : bus.writeRes s.address [commandByte cmds.WReg addr, data] with e | u <;>
      simp [I2cInterface.write_register, hb]
  · rw [← hr]
    rcases hb : bus.writeReadRes s.address [commandByte cmds.RReg addr] 1 with e | u <;>
      simp [I2cInterface.read_register, hb]
  · rw [← hw]
    rcases hp : port.writeAllRes [0x55, commandByte cmds.WReg addr, data] with e | u <;>
      rcases hf : port.flushRes with e' | u' <;>
      simp [SerialInterface.write_register, hp, hf]
  · rw [← hr]
    rcases hp : port.writeAllRes [0x55, commandByte cmds.RReg addr] with e | u <;>
      rcases hf : port.flushRes with e' | u' <;>
      rcases hq : port.readRes 1 with e'' | bs <;>
      simp [SerialInterface.read_register, hp, hf, hq]

/-- Witness for C1 at `addr = 5` with the sample opcode assignment. -/
theorem command_byte_layout_witness :
    commandByte exampleCommands.WReg 5 = exampleCommands.WReg ||| (5 <<< 2) ∧
    commandByte exampleCommands.RReg 5 = exampleCommands.RReg ||| (5 <<< 2) ∧
    ((⟨0x40⟩ : I2cInterface).write_register exampleCommands allOkBus 5 0x42).2.2 =
      [.write 0x40 [exampleCommands.WReg ||| (5 <<< 2), 0x42]] ∧
    ((⟨0x40⟩ : I2cInterface).read_register exampleCommands allOkBus 5).2.2 =
      [.writeRead 0x40 [exampleCommands.RReg ||| (5 <<< 2)] 1] ∧
    (SerialInterface.mk.write_register exampleCommands allOkPort 5 0x42).2.2.head? =
      some (.writeAll [0x55, exampleCommands.WReg ||| (5 <<< 2), 0x42]) ∧
    (SerialInterface.mk.read_register exampleCommands allOkPort 5).2.2.head? =
      some (.writeAll [0x55, exampleCommands.RReg ||| (5 <<< 2)]) :=
  command_byte_layout exampleCommands 5 (by decide) ⟨0x40⟩ ⟨⟩ allOkBus allOkPort 0x42

/-- C2: for every 3-byte response `[b0, b1, b2]`, the sample decoding inside
`read_data` on both adapters returns exactly `(b0 <<< 16) ||| (b1 <<< 8) ||| b2`,
which stays below `2 ^ 24`; the successful path has no decode failure mode. -/
theorem sample_decode_total {E : Type} (b0 b1 b2 : Nat)
    (h0 : b0 < 256) (h1 : b1 < 256) (h2 : b2 < 256)
    (cmds : Commands) (s : I2cInterface) (t : SerialInterface)
    (bus : I2cBus E) (port : SerialPort E)
    (hbus : bus.writeReadRes s.address [cmds.RData] 3 = .ok [b0, b1, b2])
    (hw : port.writeAllRes [0x55, cmds.RData] = .ok ())
    (hf : port.flushRes = .ok ())
    (hr : port.readRes 3 = .ok [b0, b1, b2]) :
    decodeSample b0 b1 b2 = (b0 <<< 16) ||| ((b1 <<< 8) ||| b2) ∧
    decodeSample b0 b1 b2 < 2 ^ 24 ∧
    (s.read_data cmds bus).2.1 = .ok ((b0 <<< 16) ||| ((b1 <<< 8) ||| b2)) ∧
    (t.read_data cmds port).2.1 = .ok ((b0 <<< 16) ||| ((b1 <<< 8) ||| b2)) := by
  have hlow : (b1 <<< 8) ||| b2 < 2 ^ 16 := by
    have := Nat.append_lt (n := 8) (m := 8) h2 h1
    simpa using this
  have hbound : decodeSample b0 b1 b2 < 2 ^ 24 := by
    have := Nat.append_lt (n := 16) (m := 8) hlow h0
    simpa [decodeSample] using this
  refine ⟨rfl, hbound, ?_, ?_⟩
  · simp [I2cInterface.read_data, hbus, fillBuf, decodeSample]
  · simp [SerialInterface.read_data, hw, hf, hr, fillBuf, decodeSample]

/-- Witness for C2 at the response bytes `[0x01, 0x02, 0x03]`. -/
theorem sample_decode_total_witness :
    decodeSample 1 2 3 = (1 <<< 16) ||| ((2 <<< 8) ||| 3) ∧
    decodeSample 1 2 3 < 2 ^ 24 ∧
    ((⟨0x40⟩ : I2cInterface).read_data exampleCommands sampleBus).2.1 =
      .ok ((1 <<< 16) ||| ((2 <<< 8) ||| 3)) ∧
    (SerialInterface.mk.read_data exampleCommands samplePort).2.1 =
      .ok ((1 <<< 16) ||| ((2 <<< 8) ||| 3)) :=
  sample_decode_total 1 2 3 (by decide) (by decide) (by decide) exampleCommands
    ⟨0x40⟩ ⟨⟩ sampleBus samplePort rfl rfl rfl rfl

/-- C3: the I2C adapter's `write_register` attempts exactly one transaction: an
addressed write of the two bytes `[commandByte WReg addr, value]` to its stored
target address, and no other I/O. -/
theorem i2c_write_register_single_write {E : Type} (cmds : Commands)
    (s : I2cInterface) (bus : I2cBus E) (register data : Nat) :
    (s.write_register cmds bus register data).2.2 =
      [.write s.address [commandByte cmds.WReg register, data]] := by
  rcases hb : bus.writeRes s.address [commandByte cmds.WReg register, data] with e | u <;>
    simp [I2cInterface.write_register, hb]

/-- C4: on the serial adapter, when the frame write succeeds `write_register`
performs exactly the calls write-all `[0x55, command, value]` then flush, and
`write_data` exactly write-all `[0x55, payload]` then flush; neither issues a
read. -/
theorem serial_write_frame_then_flush {E : Type} (cmds : Commands)
    (t : SerialInterface) (port : SerialPort E) (register data payload : Nat)
    (hw : port.writeAllRes [0x55, commandByte cmds.WReg register, data] = .ok ())
    (hp : port.writeAllRes [0x55, payload] = .ok ()) :
    (t.write_register cmds port register data).2.2 =
      [.writeAll [0x55, commandByte cmds.WReg register, data], .flush] ∧
    (t.write_data port payload).2.2 = [.writeAll [0x55, payload], .flush] := by
  constructor
  · rcases hf : port.flushRes with e | u <;>
      simp [SerialInterface.write_register, hw, hf]
  · rcases hf : port.flushRes with e | u <;>
      simp [SerialInterface.write_data, hp, hf]

/-- Witness for C4 at `addr = 5`, `value = 0x42`, `payload = 0x08`. -/
theorem serial_write_frame_then_flush_witness :
    (SerialInterface.mk.write_register exampleCommands allOkPort 5 0x42).2.2 =
      [.writeAll [0x55, commandByte exampleCommands.WReg 5, 0x42], .flush] ∧
    (SerialInterface.mk.write_data allOkPort 0x08).2.2 =
      [.writeAll [0x55, 0x08], .flush] :=
  serial_write_frame_then_flush exampleCommands ⟨⟩ allOkPort 5 0x42 0x08 rfl rfl

/-- C5: the serial adapter's `read_register` writes exactly
`[0x55, commandByte RReg addr]`, flushes, then performs one read of a 1-byte
buffer, and when the transport deposits the single byte `b` it returns `b`
unmodified. -/
theorem serial_read_register_protocol {E : Type} (cmds : Commands)
    (t : SerialInterface) (port : SerialPort E) (register b : Nat)
    (hw : port.writeAllRes [0x55, commandByte cmds.RReg register] = .ok ())
    (hf : port.flushRes = .ok ())
    (hr : port.readRes 1 = .ok [b]) :
    (t.read_register cmds port register).2.2 =
      [.writeAll [0x55, commandByte cmds.RReg register], .flush, .read 1] ∧
    (t.read_register cmds port register).2.1 = .ok b := by
  constructor <;> simp [SerialInterface.read_register, hw, hf, hr, fillBuf]

/-- Witness for C5 at `addr = 7`, response byte `0xAB`. -/
theorem serial_read_register_protocol_witness :
    (SerialInterface.mk.read_register exampleCommands byteReadPort 7).2.2 =
      [.writeAll [0x55, commandByte exampleCommands.RReg 7], .flush, .read 1] ∧
    (SerialInterface.mk.read_register exampleCommands byteReadPort 7).2.1 = .ok 0xAB :=
  serial_read_register_protocol exampleCommands ⟨⟩ byteReadPort 7 0xAB rfl rfl rfl

/-- C6: `read_data` on both adapters sends the fixed read-data opcode alone —
no register shift applied — then receives exactly 3 bytes and returns them
decoded big-endian: the I2C adapter issues one write-then-read transaction with
payload `[RData]` and read length 3; the serial adapter writes `[0x55, RData]`,
flushes, and reads a 3-byte buffer; both decode via `decodeSample`. -/
theorem read_data_protocol {E : Type} (cmds : Commands) (s : I2cInterface)
    (t : SerialInterface) (bus : I2cBus E) (port : SerialPort E) (b0 b1 b2 : Nat)
    (hbus : bus.writeReadRes s.address [cmds.RData] 3 = .ok [b0, b1, b2])
    (hw : port.writeAllRes [0x55, cmds.RData] = .ok ())
    (hf : port.flushRes = .ok ())
    (hr : port.readRes 3 = .ok [b0, b1, b2]) :
    (s.read_data cmds bus).2.2 = [.writeRead s.address [cmds.RData] 3] ∧
    (s.read_data cmds bus).2.1 = .ok (decodeSample b0 b1 b2) ∧
    (t.read_data cmds port).2.2 = [.writeAll [0x55, cmds.RData], .flush, .read 3] ∧
    (t.read_data cmds port).2.1 = .ok (decodeSample b0 b1 b2) := by
  refine ⟨?_, ?_, ?_, ?_⟩ <;>
    simp [I2cInterface.read_data, SerialInterface.read_data, hbus, hw, hf, hr, fillBuf]

/-- Witness for C6 at response bytes `[1, 2, 3]`. -/
theorem read_data_protocol_witness :
    ((⟨0x40⟩ : I2cInterface).read_data exampleCommands sampleBus).2.2 =
      [.writeRead 0x40 [exampleCommands.RData] 3] ∧
    ((⟨0x40⟩ : I2cInterface).read_data exampleCommands sampleBus).2.1 =
      .ok (decodeSample 1 2 3) ∧
    (SerialInterface.mk.read_data exampleCommands samplePort).2.2 =
      [.writeAll [0x55, exampleCommands.RData], .flush, .read 3] ∧
    (SerialInterface.mk.read_data exampleCommands samplePort).2.1 =
      .ok (decodeSample 1 2 3) :=
  read_data_protocol exampleCommands ⟨0x40⟩ ⟨⟩ sampleBus samplePort 1 2 3 rfl rfl rfl rfl

/-- C7: on both adapters, whichever transport primitive step fails first with
error `e`, the operation returns exactly `Error.CommError e` — no other error
kind exists on any path — and the attempted-transaction trace ends at the
failing step: no further I/O is attempted for that call.  One conjunct per
(operation, failing step) pair. -/
theorem comm_error_propagation {E : Type} (cmds : Commands) (s : I2cInterface)
    (t : SerialInterface) (register data payload : Nat) (e : E) :
    (∀ bus : I2cBus E,
      bus.writeRes s.address [commandByte cmds.WReg register, data] = .error e →
      (s.write_register cmds bus register data).2.1 = .error (.CommError e) ∧
      (s.write_register cmds bus register data).2.2 =
        [.write s.address [commandByte cmds.WReg register, data]]) ∧
    (∀ bus : I2cBus E,
      bus.writeRes s.address [payload] = .error e →
      (s.write_data bus payload).2.1 = .error (.CommError e) ∧
      (s.write_data bus payload).2.2 = [.write s.address [payload]]) ∧
    (∀ bus : I2cBus E,
      bus.writeReadRes s.address [commandByte cmds.RReg register] 1 = .error e →
      (s.read_register cmds bus register).2.1 = .error (.CommError e) ∧
      (s.read_register cmds bus register).2.2 =
        [.writeRead s.address [commandByte cmds.RReg register] 1]) ∧
    (∀ bus : I2cBus E,
      bus.writeReadRes s.address [cmds.RData] 3 = .error e →
      (s.read_data cmds bus).2.1 = .error (.CommError e) ∧
      (s.read_data cmds bus).2.2 = [.writeRead s.address [cmds.RData] 3]) ∧
    (∀ port : SerialPort E,
      port.writeAllRes [0x55, commandByte cmds.WReg register, data] = .error e →
      (t.write_register cmds port register data).2.1 = .error (.CommError e) ∧
      (t.write_register cmds port register data).2.2 =
        [.writeAll [0x55, commandByte cmds.WReg register, data]]) ∧
    (∀ port : SerialPort E,
      port.writeAllRes [0x55, commandByte cmds.WReg register, data] = .ok () →
      port.flushRes = .error e →
      (t.write_register cmds port register data).2.1 = .error (.CommError e) ∧
      (t.write_register cmds port register data).2.2 =
        [.writeAll [0x55, commandByte cmds.WReg register, data], .flush]) ∧
    (∀ port : SerialPort E,
      port.writeAllRes [0x55, payload] = .error e →
      (t.write_data port payload).2.1 = .error (.CommError e) ∧
      (t.write_data port payload).2.2 = [.writeAll [0x55, payload]]) ∧
    (∀ port : SerialPort E,
      port.writeAllRes [0x55, payload] = .ok () →
      port.flushRes = .error e →
      (t.write_data port payload).2.1 = .error (.CommError e) ∧
      (t.write_data port payload).2.2 = [.writeAll [0x55, payload], .flush]) ∧
    (∀ port : SerialPort E,
      port.writeAllRes [0x55, commandByte cmds.RReg register] = .error e →
      (t.read_register cmds port register).2.1 = .error (.CommError e) ∧
      (t.read_register cmds port register).2.2 =
        [.writeAll [0x55, commandByte cmds.RReg register]]) ∧
    (∀ port : SerialPort E,
      port.writeAllRes [0x55, commandByte cmds.RReg register] = .ok () →
      port.flushRes = .error e →
      (t.read_register cmds port register).2.1 = .error (.CommError e) ∧
      (t.read_register cmds port register).2.2 =
        [.writeAll [0x55, commandByte cmds.RReg register], .flush]) ∧
    (∀ port : SerialPort E,
      port.writeAllRes [0x55, commandByte cmds.RReg register] = .ok () →
      port.flushRes = .ok () →
      port.readRes 1 = .error e →
      (t.read_register cmds port register).2.1 = .error (.CommError e) ∧
      (t.read_register cmds port register).2.2 =
        [.writeAll [0x55, commandByte cmds.RReg register], .flush, .read 1]) ∧
    (∀ port : SerialPort E,
      port.writeAllRes [0x55, cmds.RData] = .error e →
      (t.read_data cmds port).2.1 = .error (.CommError e) ∧
      (t.read_data cmds port).2.2 = [.writeAll [0x55, cmds.RData]]) ∧
    (∀ port : SerialPort E,
      port.writeAllRes [0x55, cmds.RData] = .ok () →
      port.flushRes = .error e →
      (t.read_data cmds port).2.1 = .error (.CommError e) ∧
      (t.read_data cmds port).2.2 = [.writeAll [0x55, cmds.RData], .flush]) ∧
    (∀ port : SerialPort E,
      port.writeAllRes [0x55, cmds.RData] = .ok () →
      port.flushRes = .ok () →
      port.readRes 3 = .error e →
      (t.read_data cmds port).2.1 = .error (.CommError e) ∧
      (t.read_data cmds port).2.2 = [.writeAll [0x55, cmds.RData], .flush, .read 3]) := by
  refine ⟨?_, ?_, ?_, ?_, ?_, ?_, ?_, ?_, ?_, ?_, ?_, ?_, ?_, ?_⟩ <;>
    intro o h1 <;>
    first
    | exact ⟨by simp [I2cInterface.write_register, I2cInterface.write_data,
          I2cInterface.read_register, I2cInterface.read_data,
          SerialInterface.write_register, SerialInterface.write_data,
          SerialInterface.read_register, SerialInterface.read_data, h1],
        by simp [I2cInterface.write_register, I2cInterface.write_data,
          I2cInterface.read_register, I2cInterface.read_data,
          SerialInterface.write_register, SerialInterface.write_data,
          SerialInterface.read_register, SerialInterface.read_data, h1]⟩
    | (intro h2
       first
       | exact ⟨by simp [SerialInterface.write_register, SerialInterface.write_data,
             SerialInterface.read_register, SerialInterface.read_data, h1, h2],
           by simp [SerialInterface.write_register, SerialInterface.write_data,
             SerialInterface.read_register, SerialInterface.read_data, h1, h2]⟩
       | (intro h3
          exact ⟨by simp [SerialInterface.read_register, SerialInterface.read_data,
              h1, h2, h3],
            by simp [SerialInterface.read_register, SerialInterface.read_data,
              h1, h2, h3]⟩))

/-- Witness for C7: each of the fourteen (operation, failing step) pairs,
instantiated with an oracle failing at exactly that step with error `7`. -/
theorem comm_error_propagation_witness :
    ((⟨0x40⟩ : I2cInterface).write_register exampleCommands failBus 5 0x42).2.1 =
      .error (.CommError 7) ∧
    ((⟨0x40⟩ : I2cInterface).write_data failBus 8).2.1 = .error (.CommError 7) ∧
    ((⟨0x40⟩ : I2cInterface).read_register exampleCommands failBus 5).2.1 =
      .error (.CommError 7) ∧
    ((⟨0x40⟩ : I2cInterface).read_data exampleCommands failBus).2.1 =
      .error (.CommError 7) ∧
    (SerialInterface.mk.write_register exampleCommands failWritePort 5 0x42).2.1 =
      .error (.CommError 7) ∧
    (SerialInterface.mk.write_register exampleCommands failFlushPort 5 0x42).2.1 =
      .error (.CommError 7) ∧
    (SerialInterface.mk.write_data failWritePort 8).2.1 = .error (.CommError 7) ∧
    (SerialInterface.mk.write_data failFlushPort 8).2.1 = .error (.CommError 7) ∧
    (SerialInterface.mk.read_register exampleCommands failWritePort 5).2.1 =
      .error (.CommError 7) ∧
    (SerialInterface.mk.read_register exampleCommands failFlushPort 5).2.1 =
      .error (.CommError 7) ∧
    (SerialInterface.mk.read_register exampleCommands failReadPort 5).2.1 =
      .error (.CommError 7) ∧
    (SerialInterface.mk.read_data exampleCommands failWritePort).2.1 =
      .error (.CommError 7) ∧
    (SerialInterface.mk.read_data exampleCommands failFlushPort).2.1 =
      .error (.CommError 7) ∧
    (SerialInterface.mk.read_data exampleCommands failReadPort).2.1 =
      .error (.CommError 7) := by
  obtain ⟨h1, h2, h3, h4, h5, h6, h7, h8, h9, h10, h11, h12, h13, h14⟩ :=
    comm_error_propagation (E := Nat) exampleCommands ⟨0x40⟩ ⟨⟩ 5 0x42 8 7
  exact ⟨(h1 failBus rfl).1, (h2 failBus rfl).1, (h3 failBus rfl).1, (h4 failBus rfl).1,
    (h5 failWritePort rfl).1, (h6 failFlushPort rfl rfl).1, (h7 failWritePort rfl).1,
    (h8 failFlushPort rfl rfl).1, (h9 failWritePort rfl).1, (h10 failFlushPort rfl rfl).1,
    (h11 failReadPort rfl rfl rfl).1, (h12 failWritePort rfl).1,
    (h13 failFlushPort rfl rfl).1, (h14 failReadPort rfl rfl rfl).1⟩

/-- Counterexample to C8 at `addr = 64`: far from being rejected, the call with
address 64 succeeds and is byte-for-byte identical to the call with address 0 —
the 2-bit left shift has silently discarded the address's high bits
(`(64 <<< 2) % 256 = 0`). -/
theorem register_address_truncation_cex :
    ((⟨0x40⟩ : I2cInterface).write_register exampleCommands allOkBus 64 0x42) =
      ((⟨0x40⟩ : I2cInterface).write_register exampleCommands allOkBus 0 0x42) ∧
    ((⟨0x40⟩ : I2cInterface).write_register exampleCommands allOkBus 64 0x42).2.1 =
      .ok () ∧
    ((⟨0x40⟩ : I2cInterface).write_register exampleCommands allOkBus 64 0x42).2.2 =
      [.write 0x40 [commandByte exampleCommands.WReg 0, 0x42]] ∧
    commandByte exampleCommands.WReg 64 = commandByte exampleCommands.WReg 0 :=
  ⟨rfl, rfl, rfl, rfl⟩

/-- C8 amended: addresses `≥ 64` (still a `u8`, so `< 256`) are not rejected;
the `u8` left shift silently discards the high address bits, so `write_register`
and `read_register` on both adapters behave exactly as they do for
`addr % 64`. -/
theorem register_address_truncated {E : Type} (cmds : Commands) (addr : Nat)
    (h64 : 64 ≤ addr) (h256 : addr < 256) (s : I2cInterface) (t : SerialInterface)
    (bus : I2cBus E) (port : SerialPort E) (data : Nat) :
    commandByte cmds.WReg addr = commandByte cmds.WReg (addr % 64) ∧
    commandByte cmds.RReg addr = commandByte cmds.RReg (addr % 64) ∧
    s.write_register cmds bus addr data = s.write_register cmds bus (addr % 64) data ∧
    s.read_register cmds bus addr = s.read_register cmds bus (addr % 64) ∧
    t.write_register cmds port addr data = t.write_register cmds port (addr % 64) data ∧
    t.read_register cmds port addr = t.read_register cmds port (addr % 64) := by
  have hkey : (addr <<< 2) % 256 = ((addr % 64) <<< 2) % 256 := by
    simp only [Nat.shiftLeft_eq]
    omega
  have hcw : commandByte cmds.WReg addr = commandByte cmds.WReg (addr % 64) := by
    simp [commandByte, hkey]
  have hcr : commandByte cmds.RReg addr = commandByte cmds.RReg (addr % 64) := by
    simp [commandByte, hkey]
  refine ⟨hcw, hcr, ?_, ?_, ?_, ?_⟩
  · simp only [I2cInterface.write_register, hcw]
  · simp only [I2cInterface.read_register, hcr]
  · simp only [SerialInterface.write_register, hcw]
  · simp only [SerialInterface.read_register, hcr]

/-- Witness for the amended C8 at `addr = 65`, which behaves as `addr = 1`. -/
theorem register_address_truncated_witness :
    commandByte exampleCommands.WReg 65 = commandByte exampleCommands.WReg (65 % 64) ∧
    commandByte exampleCommands.RReg 65 = commandByte exampleCommands.RReg (65 % 64) ∧
    (⟨0x40⟩ : I2cInterface).write_register exampleCommands allOkBus 65 0x42 =
      (⟨0x40⟩ : I2cInterface).write_register exampleCommands allOkBus (65 % 64) 0x42 ∧
    (⟨0x40⟩ : I2cInterface).read_register exampleCommands allOkBus 65 =
      (⟨0x40⟩ : I2cInterface).read_register exampleCommands allOkBus (65 % 64) ∧
    SerialInterface.mk.write_register exampleCommands allOkPort 65 0x42 =
      SerialInterface.mk.write_register exampleCommands allOkPort (65 % 64) 0x42 ∧
    SerialInterface.mk.read_register exampleCommands allOkPort 65 =
      SerialInterface.mk.read_register exampleCommands allOkPort (65 % 64) :=
  register_address_truncated exampleCommands 65 (by decide) (by decide) ⟨0x40⟩ ⟨⟩
    allOkBus allOkPort 0x42

/-- C9: every operation on either adapter returns the adapter state it was
given — in particular the I2C adapter's stored target address is unchanged by
any call, successful or failing, and the adapters carry no state beyond the
transport handle. -/
theorem adapter_state_unchanged {E : Type} (cmds : Commands) (s : I2cInterface)
    (t : SerialInterface) (bus : I2cBus E) (port : SerialPort E)
    (register data payload : Nat) :
    (s.write_register cmds bus register data).1 = s ∧
    (s.write_data bus payload).1 = s ∧
    (s.read_register cmds bus register).1 = s ∧
    (s.read_data cmds bus).1 = s ∧
    (s.write_register cmds bus register data).1.address = s.address ∧
    (t.write_register cmds port register data).1 = t ∧
    (t.write_data port payload).1 = t ∧
    (t.read_register cmds port register).1 = t ∧
    (t.read_data cmds port).1 = t := by
  refine ⟨?_, ?_, ?_, ?_, ?_, ?_, ?_, ?_, ?_⟩
  · rcases hb : bus.writeRes s.address [commandByte cmds.WReg register, data] with e | u <;>
      simp [I2cInterface.write_register, hb]
  · rcases hb : bus.writeRes s.address [payload] with e | u <;>
      simp [I2cInterface.write_data, hb]
  · rcases hb : bus.writeReadRes s.address [commandByte cmds.RReg register] 1 with e | u <;>
      simp [I2cInterface.read_register, hb]
  · rcases hb : bus.writeReadRes s.address [cmds.RData] 3 with e | u <;>
      simp [I2cInterface.read_data, hb]
  · rcases hb : bus.writeRes s.address [commandByte cmds.WReg register, data] with e | u <;>
      simp [I2cInterface.write_register, hb]
  · rcases hp : port.writeAllRes [0x55, commandByte cmds.WReg register, data] with e | u <;>
      rcases hf : port.flushRes with e' | u' <;>
      simp [SerialInterface.write_register, hp, hf]
  · rcases hp : port.writeAllRes [0x55, payload] with e | u <;>
      rcases hf : port.flushRes with e' | u' <;>
      simp [SerialInterface.write_data, hp, hf]
  · rcases hp : port.writeAllRes [0x55, commandByte cmds.RReg register] with e | u <;>
      rcases hf : port.flushRes with e' | u' <;>
      rcases hq : port.readRes 1 with e'' | bs <;>
      simp [SerialInterface.read_register, hp, hf, hq]
  · rcases hp : port.writeAllRes [0x55, cmds.RData] with e | u <;>
      rcases hf : port.flushRes with e' | u' <;>
      rcases hq : port.readRes 3 with e'' | bs <;>
      simp [SerialInterface.read_data, hp, hf, hq]

/-- C10: the serial adapter never checks the count its transport read returned:
if the read succeeds having deposited fewer bytes than requested, the call
still returns `Ok`, the unfilled buffer positions contributing their
zero-initialised value — a 0-byte read in `read_register` yields 0, and a
1-byte read `[b]` in `read_data` yields `b <<< 16`. -/
theorem serial_short_read_unchecked {E : Type} (cmds : Commands)
    (t : SerialInterface) (port : SerialPort E) (register b : Nat)
    (hw1 : port.writeAllRes [0x55, commandByte cmds.RReg register] = .ok ())
    (hw2 : port.writeAllRes [0x55, cmds.RData] = .ok ())
    (hf : port.flushRes = .ok ())
    (hr1 : port.readRes 1 = .ok [])
    (hr3 : port.readRes 3 = .ok [b]) :
    (t.read_register cmds port register).2.1 = .ok 0 ∧
    (t.read_data cmds port).2.1 = .ok (b <<< 16) := by
  constructor
  · simp [SerialInterface.read_register, hw1, hf, hr1, fillBuf]
  · simp [SerialInterface.read_data, hw2, hf, hr3, fillBuf, decodeSample]

/-- Witness for C10: a port whose 1-byte read deposits nothing and whose
3-byte read deposits only `[0xCD]`. -/
theorem serial_short_read_unchecked_witness :
    (SerialInterface.mk.read_register exampleCommands shortReadPort 7).2.1 = .ok 0 ∧
    (SerialInterface.mk.read_data exampleCommands shortReadPort).2.1 =
      .ok (0xCD <<< 16) :=
  serial_short_read_unchecked exampleCommands ⟨⟩ shortReadPort 7 0xCD
    rfl rfl rfl rfl rfl

end Ads122x04
